import Mathlib

/-!
Verification of the growth_modeling package.

Shallow embedding of the growth-model classes of the repository
(`growth.py`, `logistic_growth.py`, `richard_growth.py`,
`exponential_generalized_growth.py`, `logistic_sigmoid_growth.py`).

Modelling conventions:

* Numeric values are real numbers (`ℝ`); numpy element-wise arithmetic over an
  array becomes `List.map` over a `List ℝ`.
* The Python `dict` of parameters is an association list `List (String × ℝ)`
  kept in insertion order, exactly as Python dictionaries preserve it; key
  lookup takes the first matching entry.
* Fallible code (failed `assert`, raised exceptions, `curve_fit` failure)
  is modelled with `Except GrowthError`.
* The two external collaborators are opaque function parameters:
  `Optimizer` stands for `scipy.optimize.curve_fit` (model function, t, y,
  bounds, initial guess `p0` → fitted parameter vector or failure) and
  `Solver` stands for `scipy.integrate.solve_ivp` restricted to the way the
  repository uses it (right-hand side, `t_span`, scalar initial value,
  `t_eval` → values at the evaluation points; the `[self.y_0]` wrapping and
  the final `out.y.flatten()` of the single solution row are absorbed into
  the scalar-in / flat-list-out shape of the type).
* Mutation of `self.params` by `fit` is modelled by state passing: `fit`
  returns the new parameter dict on success.
-/

namespace GrowthModeling

/-- Errors surfaced by the growth classes: failed `assert set(keys) == set(sig)`
(`_check_params`), failed `assert len(args) == len(signature)`
(`_get_compute_parameters`), the explicit `y_0` unset exception, out-of-range
indexing `fit_params[i]`, Python `max([])`, and a failure reported by the
optimizer collaborator. -/
inductive GrowthError where
  | signatureMismatch
  | argCountMismatch
  | unsetY0
  | indexError
  | emptyInput
  | optimizerFailure
  deriving DecidableEq, Repr

/-- A Python parameter dict: name/value pairs in insertion order. -/
abbrev Params := List (String × ℝ)

/-- Bounds for each parameter, passed opaquely to the optimizer collaborator. -/
abbrev Bounds := List (ℝ × ℝ)

/-- The model function handed to the optimizer, `self.compute_y`:
time values and a full parameter vector give response values or an error. -/
abbrev ModelFn := List ℝ → List ℝ → Except GrowthError (List ℝ)

/-- The optimizer collaborator `curve_fit(f, t, y, bounds=..., p0=...)`:
returns the fitted parameter vector or a failure. -/
abbrev Optimizer :=
  ModelFn → List ℝ → List ℝ → Bounds → List ℝ → Except GrowthError (List ℝ)

/-- The ODE-solver collaborator `solve_ivp(rhs, t_span, y0, t_eval=t)`:
returns the solution values at the requested evaluation points. -/
abbrev Solver := (ℝ → ℝ → ℝ) → (ℝ × ℝ) → ℝ → List ℝ → List ℝ

/-- `self.params.keys()` in insertion order. -/
def keys (ps : Params) : List String := ps.map Prod.fst

/-- `self.params[k]`: value at the first entry whose key is `k` (Python dicts
hold each key once, so the first match is the only match). -/
def dictGet (ps : Params) (k : String) : ℝ :=
  (((ps.find? (fun kv => kv.1 = k)).map Prod.snd).getD 0)

/-- `Growth._check_params`: `set(self.params.keys()) == set(self.params_signature)`,
as a Boolean (the source raises `AssertionError` when it is false). -/
def checkParams (sig : List String) (ps : Params) : Bool :=
  (keys ps).all (fun k => k ∈ sig) && sig.all (fun k => k ∈ keys ps)

/-- `Growth._get_compute_parameters(args)`: if `len(args) > 0`, assert the
length matches the signature and return `args` as given; otherwise re-check
the stored dict against the signature and return
`(self.params[k] for k in self.params_signature)`. -/
def getComputeParameters (sig : List String) (ps : Params) (args : List ℝ) :
    Except GrowthError (List ℝ) :=
  if args.length > 0 then
    if args.length = sig.length then Except.ok args
    else Except.error GrowthError.argCountMismatch
  else
    if checkParams sig ps then Except.ok (sig.map (dictGet ps))
    else Except.error GrowthError.signatureMismatch

/-- The assignment loop at the end of `Growth.fit`:
`for i, key in enumerate(self.params.keys()): self.params[key] = fit_params[i]`.
Every stored key, in dict insertion order, receives the fitted value at its
index; `fit_params[i]` raises `IndexError` when the fitted vector is shorter
than the key list. -/
def assignFitted (ps : Params) (fitted : List ℝ) : Except GrowthError Params :=
  if ps.length ≤ fitted.length then
    Except.ok (ps.zipWith (fun kv v => (kv.1, v)) fitted)
  else Except.error GrowthError.indexError

/-- `Growth.fit(t, y, p0=[])`. The source calls
`curve_fit(self.compute_y, t, y, bounds=self.bounds,
p0=tuple(self._get_compute_parameters()))` and then runs the assignment loop.
Note that the `p0` argument of `fit` itself appears nowhere in the body: the
initial guess handed to `curve_fit` is always recomputed from the stored
parameters. The updated parameter dict is returned on success. -/
def fit (opt : Optimizer) (fn : ModelFn) (sig : List String) (ps : Params)
    (bounds : Bounds) (t y p0 : List ℝ) : Except GrowthError Params := do
  let start ← getComputeParameters sig ps []
  let fitted ← opt fn t y bounds start
  assignFitted ps fitted

/-- Python `max(t)`: raises on an empty sequence. -/
def pyMax : List ℝ → Except GrowthError ℝ
  | [] => Except.error GrowthError.emptyInput
  | x :: xs => Except.ok (xs.foldl max x)

/-- A growth-model instance after `Growth.__init__` plus the subclass
`__init__` body: fixed signature, stored parameter dict, stored bounds. -/
structure GrowthState where
  params_signature : List String
  params : Params
  bounds : Bounds

/-- An initial-value variant additionally carries `y_0`, a sentinel-unset
field modelled as `Option ℝ` (`none` for the `NotImplemented` sentinel). -/
structure IVGrowthState extends GrowthState where
  y_0 : Option ℝ

namespace LogisticGrowth

/-- `self.params_signature = ("a", "t_0", "K")`. -/
def params_signature : List String := ["a", "t_0", "K"]

/-- `LogisticGrowth.__init__(params, bounds)`: store params and bounds, fix
the signature, then `self._check_params()`. -/
def init (ps : Params) (bounds : Bounds) : Except GrowthError GrowthState :=
  if checkParams params_signature ps then
    Except.ok ⟨params_signature, ps, bounds⟩
  else Except.error GrowthError.signatureMismatch

/-- `LogisticGrowth.compute_y(t, *args)`:
`a, t_0, K = self._get_compute_parameters(args)` then
`K / (1 + np.exp(- a * (t - t_0)))` element-wise. -/
noncomputable def compute_y (ps : Params) (t : List ℝ) (args : List ℝ) :
    Except GrowthError (List ℝ) := do
  let resolved ← getComputeParameters params_signature ps args
  match resolved with
  | [a, t_0, K] => Except.ok (t.map (fun τ => K / (1 + Real.exp (- a * (τ - t_0)))))
  | _ => Except.error GrowthError.argCountMismatch

end LogisticGrowth

namespace RichardGrowth

/-- `self.params_signature = ("a", "b", "d", "K")`. -/
def params_signature : List String := ["a", "b", "d", "K"]

/-- `RichardGrowth.__init__(params, bounds)`. -/
def init (ps : Params) (bounds : Bounds) : Except GrowthError GrowthState :=
  if checkParams params_signature ps then
    Except.ok ⟨params_signature, ps, bounds⟩
  else Except.error GrowthError.signatureMismatch

/-- `RichardGrowth.compute_y(t, *args)`:
`a, b, d, K = self._get_compute_parameters(args)` then
`K * (1 + np.exp(d - a * b * t)) ** (- 1 / b)` element-wise (real power). -/
noncomputable def compute_y (ps : Params) (t : List ℝ) (args : List ℝ) :
    Except GrowthError (List ℝ) := do
  let resolved ← getComputeParameters params_signature ps args
  match resolved with
  | [a, b, d, K] =>
      Except.ok (t.map (fun τ => K * (1 + Real.exp (d - a * b * τ)) ^ (-1 / b : ℝ)))
  | _ => Except.error GrowthError.argCountMismatch

end RichardGrowth

namespace ExponentialGeneralizedGrowth

/-- `self.params_signature = ("a", "p")`. -/
def params_signature : List String := ["a", "p"]

/-- `ExponentialGeneralizedGrowth.__init__(params, bounds)`: check the
signature, then `self.y_0 = NotImplemented` (unset). -/
def init (ps : Params) (bounds : Bounds) : Except GrowthError IVGrowthState :=
  if checkParams params_signature ps then
    Except.ok ⟨⟨params_signature, ps, bounds⟩, none⟩
  else Except.error GrowthError.signatureMismatch

/-- `ExponentialGeneralizedGrowth.compute_y(t, *args)`: first the `y_0`
sentinel check, then `(a, p) = self._get_compute_parameters(args)`, then
`((1 - p) * a * t + (1 / self.y_0) ** (p - 1)) ** (-1/(p-1))` element-wise. -/
noncomputable def compute_y (y_0 : Option ℝ) (ps : Params) (t : List ℝ) (args : List ℝ) :
    Except GrowthError (List ℝ) :=
  match y_0 with
  | none => Except.error GrowthError.unsetY0
  | some y0 => do
      let resolved ← getComputeParameters params_signature ps args
      match resolved with
      | [a, p] =>
          Except.ok (t.map (fun τ =>
            ((1 - p) * a * τ + (1 / y0) ^ (p - 1 : ℝ)) ^ (-1 / (p - 1) : ℝ)))
      | _ => Except.error GrowthError.argCountMismatch

end ExponentialGeneralizedGrowth

namespace LogisticSigmoidGrowth

/-- `self.params_signature = ("a", "c", "K")`. -/
def params_signature : List String := ["a", "c", "K"]

/-- `LogisticSigmoidGrowth.__init__(params, bounds)`: check the signature,
then `self.y_0 = NotImplemented` (unset). -/
def init (ps : Params) (bounds : Bounds) : Except GrowthError IVGrowthState :=
  if checkParams params_signature ps then
    Except.ok ⟨⟨params_signature, ps, bounds⟩, none⟩
  else Except.error GrowthError.signatureMismatch

/-- The right-hand side `dydt` defined inside `compute_y`:
`(a * y * (K - y)) / (K - y + c * y)`. -/
noncomputable def dydt (a c K τ y : ℝ) : ℝ := (a * y * (K - y)) / (K - y + c * y)

/-- `LogisticSigmoidGrowth.compute_y(t, *args)`: first the `y_0` sentinel
check, then `a, c, K = self._get_compute_parameters(args)`, then
`solve_ivp(dydt, (0, max(t)), [self.y_0], t_eval=t)` and return
`out.y.flatten()` — the collaborator's values at the evaluation points,
unchanged and in the order of `t`. -/
noncomputable def compute_y (solver : Solver) (y_0 : Option ℝ) (ps : Params) (t : List ℝ)
    (args : List ℝ) : Except GrowthError (List ℝ) :=
  match y_0 with
  | none => Except.error GrowthError.unsetY0
  | some y0 => do
      let resolved ← getComputeParameters params_signature ps args
      match resolved with
      | [a, c, K] => do
          let tmax ← pyMax t
          Except.ok (solver (fun τ y => dydt a c K τ y) (0, tmax) y0 t)
      | _ => Except.error GrowthError.argCountMismatch

end LogisticSigmoidGrowth

/-! ## General lemmas about the shared machinery -/

/-- `_check_params` succeeds exactly when the key set of the stored dict
equals the set of signature names. -/
lemma checkParams_eq_true_iff (sig : List String) (ps : Params) :
    checkParams sig ps = true ↔ (keys ps).toFinset = sig.toFinset := by
  simp only [checkParams, Bool.and_eq_true, List.all_eq_true, decide_eq_true_eq,
    Finset.ext_iff, List.mem_toFinset]
  constructor
  · rintro ⟨h₁, h₂⟩ k
    exact ⟨fun hk => h₁ k hk, fun hk => h₂ k hk⟩
  · intro h
    exact ⟨fun k hk => (h k).1 hk, fun k hk => (h k).2 hk⟩

/-- A dict whose insertion order agrees with the signature passes the check. -/
lemma checkParams_of_keys_eq {sig : List String} {ps : Params}
    (h : keys ps = sig) : checkParams sig ps = true := by
  rw [checkParams_eq_true_iff, h]

/-- With a non-empty override of exactly signature length, parameter
resolution returns the override unchanged, ignoring the stored dict. -/
lemma getComputeParameters_of_length_eq (sig : List String) (ps : Params)
    (args : List ℝ) (hpos : 0 < args.length) (hlen : args.length = sig.length) :
    getComputeParameters sig ps args = Except.ok args := by
  rw [getComputeParameters, if_pos hpos, if_pos hlen]

/-- With a non-empty override whose length differs from the signature,
parameter resolution fails with the argument-count error. -/
lemma getComputeParameters_of_length_ne (sig : List String) (ps : Params)
    (args : List ℝ) (hpos : 0 < args.length) (hlen : args.length ≠ sig.length) :
    getComputeParameters sig ps args = Except.error GrowthError.argCountMismatch := by
  rw [getComputeParameters, if_pos hpos, if_neg hlen]

/-- With no override, parameter resolution re-checks the stored dict and,
on success, reads the values in signature order. -/
lemma getComputeParameters_nil (sig : List String) (ps : Params)
    (hck : checkParams sig ps = true) :
    getComputeParameters sig ps [] = Except.ok (sig.map (dictGet ps)) := by
  simp [getComputeParameters, hck]

/-- The pairing computed by the `fit` assignment loop: each stored key, in
insertion order, is matched positionally with a fitted value. -/
lemma zipWith_key_value (ps : Params) (fitted : List ℝ) :
    List.zipWith (fun kv v => (kv.1, v)) ps fitted = (keys ps).zip fitted := by
  induction ps generalizing fitted with
  | nil => simp [keys]
  | cons kv ps ih =>
      cases fitted with
      | nil => simp [keys]
      | cons v vs => simpa [keys] using ih vs

/-- The `fit` assignment loop pairs the stored keys, in insertion order, with
the fitted values, in the optimizer's (signature) order. -/
lemma assignFitted_eq_zip (ps : Params) (fitted : List ℝ)
    (hlen : ps.length ≤ fitted.length) :
    assignFitted ps fitted = Except.ok ((keys ps).zip fitted) := by
  rw [assignFitted, if_pos hlen, zipWith_key_value]

/-- Computation rule for Except bind on a success value, as produced by the
do-notation in `fit` and the `compute_y` methods. -/
lemma bind_ok {α β : Type} (a : α) (f : α → Except GrowthError β) :
    (do let x ← (Except.ok a : Except GrowthError α); f x) = f a := rfl

/-- Computation rule for Except bind on an error value. -/
lemma bind_error {α β : Type} (e : GrowthError) (f : α → Except GrowthError β) :
    (do let x ← (Except.error e : Except GrowthError α); f x)
      = (Except.error e : Except GrowthError β) := rfl

/-- Constructing or re-checking against a signature fails with the
signature-mismatch error exactly when the key set differs from the
signature's name set. -/
lemma checkParams_branch_iff {α : Type} (sig : List String) (ps : Params)
    (a : α) :
    ((if checkParams sig ps then Except.ok a
      else Except.error GrowthError.signatureMismatch)
        = (Except.error GrowthError.signatureMismatch : Except GrowthError α))
    ↔ (keys ps).toFinset ≠ sig.toFinset := by
  by_cases hck : checkParams sig ps = true
  · rw [if_pos hck]
    simp [(checkParams_eq_true_iff sig ps).mp hck]
  · rw [if_neg hck]
    have hne : (keys ps).toFinset ≠ sig.toFinset :=
      fun h => hck ((checkParams_eq_true_iff sig ps).mpr h)
    simp [hne]

/-! ## Claim theorems -/

/-- C6: For the two initial-value-dependent variants (Logistic-Sigmoid and
Generalized-Exponential), forward evaluation raises the unset-required-state
error immediately — before any parameter resolution or numeric work — whenever
the initial response value `y_0` has not been set, for every input `t` and
every override (including overrides or stored dicts that are themselves
invalid, which shows the `y_0` check precedes parameter resolution). -/
theorem c6_unset_initial_response (solver : Solver) (ps : Params)
    (t args : List ℝ) :
    ExponentialGeneralizedGrowth.compute_y none ps t args
      = Except.error GrowthError.unsetY0
    ∧ LogisticSigmoidGrowth.compute_y solver none ps t args
      = Except.error GrowthError.unsetY0 :=
  ⟨rfl, rfl⟩

/-- C5: For every growth variant and every non-empty explicit parameter
override, forward evaluation fails with an argument-count error whenever the
override's length differs from the length of the parameter signature
(3 for Logistic and Logistic-Sigmoid, 4 for Richards, 2 for
Generalized-Exponential; the initial-value variants are taken with `y_0` set,
since their unset-state check precedes parameter resolution); an override of
exactly signature length is accepted as given, so partial overrides are never
accepted. -/
theorem c5_argument_count (ps : Params) (args t : List ℝ) (y0 : ℝ)
    (solver : Solver) (hne : args ≠ []) :
    (args.length ≠ 3 → LogisticGrowth.compute_y ps t args
      = Except.error GrowthError.argCountMismatch)
    ∧ (args.length ≠ 4 → RichardGrowth.compute_y ps t args
      = Except.error GrowthError.argCountMismatch)
    ∧ (args.length ≠ 2 → ExponentialGeneralizedGrowth.compute_y (some y0) ps t args
      = Except.error GrowthError.argCountMismatch)
    ∧ (args.length ≠ 3 → LogisticSigmoidGrowth.compute_y solver (some y0) ps t args
      = Except.error GrowthError.argCountMismatch)
    ∧ (∀ sig : List String, args.length = sig.length →
        getComputeParameters sig ps args = Except.ok args) := by
  have hpos : 0 < args.length := List.length_pos.mpr hne
  refine ⟨fun h => ?_, fun h => ?_, fun h => ?_, fun h => ?_,
    fun sig hlen => getComputeParameters_of_length_eq sig ps args hpos hlen⟩
  · rw [LogisticGrowth.compute_y,
      getComputeParameters_of_length_ne _ _ _ hpos (by simpa [LogisticGrowth.params_signature] using h)]
    rfl
  · rw [RichardGrowth.compute_y,
      getComputeParameters_of_length_ne _ _ _ hpos (by simpa [RichardGrowth.params_signature] using h)]
    rfl
  · rw [ExponentialGeneralizedGrowth.compute_y,
      getComputeParameters_of_length_ne _ _ _ hpos (by simpa [ExponentialGeneralizedGrowth.params_signature] using h)]
    rfl
  · rw [LogisticSigmoidGrowth.compute_y,
      getComputeParameters_of_length_ne _ _ _ hpos (by simpa [LogisticSigmoidGrowth.params_signature] using h)]
    rfl

/-- Witness for C5: a length-5 override is rejected by the Richards variant
with the argument-count error. -/
theorem c5_argument_count_witness :
    RichardGrowth.compute_y [] [0] [1, 2, 3, 4, 5]
      = Except.error GrowthError.argCountMismatch :=
  (c5_argument_count [] [1, 2, 3, 4, 5] [0] 0 (fun _ _ _ teval => teval)
    (List.cons_ne_nil _ _)).2.1 (by decide)

/-- C10: When a full-length explicit parameter override is supplied, the
forward evaluation of a closed-form variant depends only on the input times
and the override and never reads the stored parameters mapping: two instances
of the same variant holding different stored parameters return identical
results for the same `t` and the same override. (That the call leaves each
instance's stored parameters unchanged is visible in the embedding itself:
`compute_y` returns only response values and no updated dict — unlike `fit`,
which returns the new dict it produces.) -/
theorem c10_override_shields_stored_params (ps1 ps2 : Params)
    (t args3 args4 : List ℝ) (h3 : args3.length = 3) (h4 : args4.length = 4) :
    LogisticGrowth.compute_y ps1 t args3 = LogisticGrowth.compute_y ps2 t args3
    ∧ RichardGrowth.compute_y ps1 t args4 = RichardGrowth.compute_y ps2 t args4 := by
  constructor
  · rw [LogisticGrowth.compute_y, LogisticGrowth.compute_y,
      getComputeParameters_of_length_eq _ _ _ (by omega)
        (by simpa [LogisticGrowth.params_signature] using h3),
      getComputeParameters_of_length_eq _ _ _ (by omega)
        (by simpa [LogisticGrowth.params_signature] using h3)]
  · rw [RichardGrowth.compute_y, RichardGrowth.compute_y,
      getComputeParameters_of_length_eq _ _ _ (by omega)
        (by simpa [RichardGrowth.params_signature] using h4),
      getComputeParameters_of_length_eq _ _ _ (by omega)
        (by simpa [RichardGrowth.params_signature] using h4)]

/-- Witness for C10: two Logistic (resp. Richards) instances with different
stored dicts agree on an explicit full-length override. -/
theorem c10_override_shields_stored_params_witness :
    LogisticGrowth.compute_y [("a", 5), ("t_0", 6), ("K", 7)] [0] [1, 0, 100]
      = LogisticGrowth.compute_y [] [0] [1, 0, 100]
    ∧ RichardGrowth.compute_y [("a", 5), ("t_0", 6), ("K", 7)] [0] [1, 1, 0, 100]
      = RichardGrowth.compute_y [] [0] [1, 1, 0, 100] :=
  c10_override_shields_stored_params [("a", 5), ("t_0", 6), ("K", 7)] []
    [0] [1, 0, 100] [1, 1, 0, 100] rfl rfl

/-- C4: For every growth variant, a signature-mismatch error is raised exactly
when the supplied parameter dict's key set differs from the variant's fixed
parameter signature — at construction (each variant's `__init__` runs
`_check_params`) and again whenever parameter resolution falls back to the
stored dict because no explicit override was supplied
(`_get_compute_parameters` with empty `args` re-runs `_check_params`). -/
theorem c4_signature_mismatch_iff (ps : Params) (bounds : Bounds) :
    (LogisticGrowth.init ps bounds = Except.error GrowthError.signatureMismatch
      ↔ (keys ps).toFinset ≠ LogisticGrowth.params_signature.toFinset)
    ∧ (RichardGrowth.init ps bounds = Except.error GrowthError.signatureMismatch
      ↔ (keys ps).toFinset ≠ RichardGrowth.params_signature.toFinset)
    ∧ (ExponentialGeneralizedGrowth.init ps bounds
        = Except.error GrowthError.signatureMismatch
      ↔ (keys ps).toFinset ≠ ExponentialGeneralizedGrowth.params_signature.toFinset)
    ∧ (LogisticSigmoidGrowth.init ps bounds
        = Except.error GrowthError.signatureMismatch
      ↔ (keys ps).toFinset ≠ LogisticSigmoidGrowth.params_signature.toFinset)
    ∧ (∀ sig : List String,
        getComputeParameters sig ps [] = Except.error GrowthError.signatureMismatch
      ↔ (keys ps).toFinset ≠ sig.toFinset) := by
  refine ⟨?_, ?_, ?_, ?_, fun sig => ?_⟩
  · rw [LogisticGrowth.init]
    exact checkParams_branch_iff _ _ _
  · rw [RichardGrowth.init]
    exact checkParams_branch_iff _ _ _
  · rw [ExponentialGeneralizedGrowth.init]
    exact checkParams_branch_iff _ _ _
  · rw [LogisticSigmoidGrowth.init]
    exact checkParams_branch_iff _ _ _
  · rw [getComputeParameters]
    simp only [List.length_nil, gt_iff_lt, lt_irrefl, if_false]
    exact checkParams_branch_iff _ _ _

/-- Witness for C4: a dict with the single wrong key `z` is rejected at
construction of the Logistic variant. -/
theorem c4_signature_mismatch_iff_witness :
    LogisticGrowth.init [("z", 1)] [] = Except.error GrowthError.signatureMismatch :=
  (c4_signature_mismatch_iff [("z", 1)] []).1.mpr (by decide)

/-- C1 counterexample: the claim is false as stated. Take the Logistic variant
with signature `("a", "t_0", "K")` and an initial dict whose insertion order
is `t_0, a, K` (its key set equals the signature set, so the fit runs), and an
optimizer that converges to the fitted vector `[10, 20, 30]` — in signature
order: a=10, t_0=20, K=30. The claim says the entry at name `a` receives the
fitted value at `a`'s signature position, i.e. 10; the code assigns by dict
insertion order, so `a` actually receives 20. -/
theorem c1_counterexample :
    fit (fun _ _ _ _ _ => Except.ok [10, 20, 30]) (fun _ _ => Except.ok [])
      LogisticGrowth.params_signature [("t_0", 5), ("a", 1), ("K", 100)]
      [] [0] [0] []
      = Except.ok [("t_0", 10), ("a", 20), ("K", 30)]
    ∧ dictGet [("t_0", 10), ("a", 20), ("K", 30)] "a" ≠ 10 := by
  refine ⟨rfl, ?_⟩
  show (20 : ℝ) ≠ 10
  norm_num

/-- C1 (amended): a successful `fit` pairs the stored keys, in dict insertion
order, with the fitted values, in signature order. Hence when the dict's
insertion order agrees with the signature order — the precondition the
variants' docstrings demand — every parameter name receives the fitted value
at that name's position in the parameter signature; when the orders differ the
assignment follows insertion order instead (see the counterexample). -/
theorem c1_fit_assignment_order (opt : Optimizer) (fn : ModelFn)
    (sig : List String) (ps : Params) (bounds : Bounds) (t y p0 fitted : List ℝ)
    (hkeys : keys ps = sig)
    (hopt : opt fn t y bounds (sig.map (dictGet ps)) = Except.ok fitted)
    (hlen : fitted.length = sig.length) :
    fit opt fn sig ps bounds t y p0 = Except.ok (sig.zip fitted) := by
  have hck : checkParams sig ps = true := checkParams_of_keys_eq hkeys
  have hps : ps.length ≤ fitted.length := by
    have h1 : (keys ps).length = sig.length := by rw [hkeys]
    simp only [keys, List.length_map] at h1
    omega
  rw [fit, getComputeParameters_nil sig ps hck, bind_ok, hopt, bind_ok,
    assignFitted_eq_zip ps fitted hps, hkeys]

/-- Witness for C1 (amended): with insertion order matching the signature,
the fitted values land on the signature names in order. -/
theorem c1_fit_assignment_order_witness :
    fit (fun _ _ _ _ _ => Except.ok [2, 3, 4]) (fun _ _ => Except.ok [])
      LogisticGrowth.params_signature [("a", 1), ("t_0", 0), ("K", 100)]
      [] [0] [0] []
      = Except.ok (LogisticGrowth.params_signature.zip [2, 3, 4]) :=
  c1_fit_assignment_order _ _ _ _ _ _ _ _ _ rfl rfl rfl

/-- C2 (code bug): the `p0` argument of `fit` is dead — the body never reads
it, so the result of `fit` is identical for any two supplied overrides; and
an optimizer that echoes back the initial guess it receives shows that, with
stored logistic parameters a=1, t_0=0, K=100 and the supplied override
`p0=[2, 1, 50]`, the optimizer's starting point is still the stored values
(1, 0, 100), not the override. -/
theorem c2_fit_ignores_p0 (opt : Optimizer) (fn : ModelFn) (sig : List String)
    (ps : Params) (bounds : Bounds) (t y p0 p0' : List ℝ) :
    fit opt fn sig ps bounds t y p0 = fit opt fn sig ps bounds t y p0'
    ∧ fit (fun _ _ _ _ start => Except.ok start) (fun _ _ => Except.ok [])
        LogisticGrowth.params_signature [("a", 1), ("t_0", 0), ("K", 100)]
        [] [0] [0] [2, 1, 50]
      = Except.ok [("a", 1), ("t_0", 0), ("K", 100)] :=
  ⟨rfl, rfl⟩

/-- C3: if the optimizer collaborator fails (non-convergence or a rejected
infeasible bound/initial-guess combination), `fit` surfaces that error to the
caller, and no updated parameter dict is produced — the assignment loop runs
only after a successful return, so the stored parameters stay exactly at
their pre-fit values (in this state-passing embedding, a mutated dict exists
only inside a returned `Except.ok`). -/
theorem c3_fit_failure_atomic (opt : Optimizer) (fn : ModelFn)
    (sig : List String) (ps : Params) (bounds : Bounds) (t y p0 : List ℝ)
    (e : GrowthError) (hck : checkParams sig ps = true)
    (hopt : opt fn t y bounds (sig.map (dictGet ps)) = Except.error e) :
    fit opt fn sig ps bounds t y p0 = Except.error e := by
  rw [fit, getComputeParameters_nil sig ps hck, bind_ok, hopt, bind_error]

/-- Witness for C3: a failing optimizer's error is surfaced unchanged. -/
theorem c3_fit_failure_atomic_witness :
    fit (fun _ _ _ _ _ => Except.error GrowthError.optimizerFailure)
      (fun _ _ => Except.ok [])
      LogisticGrowth.params_signature [("a", 1), ("t_0", 0), ("K", 100)]
      [] [0] [0] []
      = Except.error GrowthError.optimizerFailure :=
  c3_fit_failure_atomic _ _ _ _ _ _ _ _ _ rfl rfl

/-- C7: for every list of time values, the Richards forward evaluation with
explicit parameters a=1, b=1, d=0, K=100 coincides exactly with the Logistic
forward evaluation with explicit parameters a=1, t_0=0, K=100, whatever the
two instances' stored parameter dicts are: Richards reduces to the Logistic
formula at b=1. -/
theorem c7_richard_reduces_to_logistic (ps ps2 : Params) (t : List ℝ) :
    RichardGrowth.compute_y ps t [1, 1, 0, 100]
      = LogisticGrowth.compute_y ps2 t [1, 0, 100] := by
  rw [RichardGrowth.compute_y,
    getComputeParameters_of_length_eq _ _ _ (by norm_num) rfl, bind_ok,
    LogisticGrowth.compute_y,
    getComputeParameters_of_length_eq _ _ _ (by norm_num) rfl, bind_ok]
  show Except.ok (t.map fun τ =>
      (100:ℝ) * (1 + Real.exp (0 - 1 * 1 * τ)) ^ (-1 / 1 : ℝ))
    = Except.ok (t.map fun τ => (100:ℝ) / (1 + Real.exp (- 1 * (τ - 0))))
  have key : ∀ τ : ℝ,
      (100:ℝ) * (1 + Real.exp (0 - 1 * 1 * τ)) ^ (-1 / 1 : ℝ)
        = 100 / (1 + Real.exp (- 1 * (τ - 0))) := by
    intro τ
    rw [show (0:ℝ) - 1 * 1 * τ = -1 * (τ - 0) by ring,
      show (-1 / 1 : ℝ) = -1 by norm_num,
      Real.rpow_neg_one, ← div_eq_mul_inv]
  rw [funext key]

/-- The generalized-exponential forward law exactly as the spec's table
states it: `y(t) = ((1-p)·a·t + y0^(1-p))^(1/(1-p))`. Written from the
spec's words for comparison against the source formula, which is
`((1-p)·a·t + (1/y0)^(p-1))^(-1/(p-1))`. -/
noncomputable def specExponentialGeneralizedLaw (y0 a p t : ℝ) : ℝ :=
  ((1 - p) * a * t + y0 ^ ((1:ℝ) - p)) ^ ((1:ℝ) / (1 - p))

/-- C8: for the Generalized-Exponential variant with `y_0` set to a positive
value and parameters a, p with p ≠ 1, forward evaluation computes exactly the
spec's law `y(t) = ((1-p)·a·t + y0^(1-p))^(1/(1-p))` at every requested time
(the source's `(1/y0)^(p-1)` equals `y0^(1-p)` and `-1/(p-1)` equals
`1/(1-p)`), and that law evaluated at t = 0 returns `y_0` itself. -/
theorem c8_expgen_matches_spec_law (y0 a p : ℝ) (t : List ℝ) (ps : Params)
    (hy0 : 0 < y0) (hp : p ≠ 1) :
    ExponentialGeneralizedGrowth.compute_y (some y0) ps t [a, p]
      = Except.ok (t.map (specExponentialGeneralizedLaw y0 a p))
    ∧ specExponentialGeneralizedLaw y0 a p 0 = y0 := by
  have h1p : (1:ℝ) - p ≠ 0 := sub_ne_zero.mpr (Ne.symm hp)
  have hbase : ((1:ℝ) / y0) ^ (p - 1 : ℝ) = y0 ^ ((1:ℝ) - p) := by
    rw [one_div, Real.inv_rpow hy0.le, ← Real.rpow_neg hy0.le,
      show -(p - 1) = (1:ℝ) - p by ring]
  have hexp : (-1 / (p - 1) : ℝ) = (1:ℝ) / (1 - p) := by
    rw [show (1:ℝ) - p = -(p - 1) by ring, div_neg, neg_div]
  constructor
  · show (do
      let resolved ← getComputeParameters
        ExponentialGeneralizedGrowth.params_signature ps [a, p]
      match resolved with
      | [a, p] => Except.ok (t.map (fun τ =>
          ((1 - p) * a * τ + (1 / y0) ^ (p - 1 : ℝ)) ^ (-1 / (p - 1) : ℝ)))
      | _ => Except.error GrowthError.argCountMismatch)
        = Except.ok (t.map (specExponentialGeneralizedLaw y0 a p))
    rw [getComputeParameters_of_length_eq _ _ _ (by norm_num) rfl, bind_ok]
    show Except.ok (t.map (fun τ =>
        ((1 - p) * a * τ + (1 / y0) ^ (p - 1 : ℝ)) ^ (-1 / (p - 1) : ℝ)))
      = Except.ok (t.map (specExponentialGeneralizedLaw y0 a p))
    have key : ∀ τ : ℝ,
        ((1 - p) * a * τ + (1 / y0) ^ (p - 1 : ℝ)) ^ (-1 / (p - 1) : ℝ)
          = specExponentialGeneralizedLaw y0 a p τ := by
      intro τ
      rw [specExponentialGeneralizedLaw, hbase, hexp]
    rw [funext key]
  · rw [specExponentialGeneralizedLaw, mul_zero, zero_add,
      ← Real.rpow_mul hy0.le, mul_one_div_cancel h1p, Real.rpow_one]

/-- Witness for C8: with `y_0 = 1`, a=1, p=0, evaluation at the single time
point 0 follows the spec law, and the law returns `y_0` at time 0. -/
theorem c8_expgen_matches_spec_law_witness :
    ExponentialGeneralizedGrowth.compute_y (some 1) [] [0] [1, 0]
      = Except.ok ([0].map (specExponentialGeneralizedLaw 1 1 0))
    ∧ specExponentialGeneralizedLaw 1 1 0 0 = 1 :=
  c8_expgen_matches_spec_law 1 1 0 [0] [] one_pos zero_ne_one

/-- C9 counterexample: the claim is false for the empty sequence of time
points, which trivially has every entry ≥ 0 — with `y_0` set and a valid
stored dict, `compute_y` still fails, because `max(t)` raises on an empty
sequence before the collaborator is ever called. So the claim's "any sequence
of time points with every entry ≥ 0 succeeds" does not hold as stated. -/
theorem c9_counterexample :
    LogisticSigmoidGrowth.compute_y (fun _ _ _ teval => teval) (some 1)
      [("a", 1), ("c", 1), ("K", 100)] [] []
      = Except.error GrowthError.emptyInput := rfl

/-- C9 (amended): for the Logistic-Sigmoid variant with `y_0` set, forward
evaluation at any non-empty sequence of time points with every entry ≥ 0 —
not necessarily sorted or evenly spaced — succeeds, handing the collaborator
exactly the input times as evaluation points (`t_eval = t`, unreordered) over
the span `(0, max t)` and returning the collaborator's values unchanged; by
the collaborator's dense-output contract (one value per requested point) the
i-th output corresponds to the i-th input time. -/
theorem c9_eval_points_alignment (solver : Solver) (y0 x : ℝ) (xs : List ℝ)
    (ps : Params) (a c K : ℝ)
    (hsolver : ∀ rhs span i teval, (solver rhs span i teval).length = teval.length)
    (hnonneg : ∀ τ ∈ x :: xs, 0 ≤ τ) :
    LogisticSigmoidGrowth.compute_y solver (some y0) ps (x :: xs) [a, c, K]
      = Except.ok (solver (fun τ y => LogisticSigmoidGrowth.dydt a c K τ y)
          (0, xs.foldl max x) y0 (x :: xs))
    ∧ (solver (fun τ y => LogisticSigmoidGrowth.dydt a c K τ y)
          (0, xs.foldl max x) y0 (x :: xs)).length = (x :: xs).length := by
  refine ⟨?_, hsolver _ _ _ _⟩
  show (do
    let resolved ← getComputeParameters
      LogisticSigmoidGrowth.params_signature ps [a, c, K]
    match resolved with
    | [a, c, K] => do
        let tmax ← pyMax (x :: xs)
        Except.ok (solver (fun τ y => LogisticSigmoidGrowth.dydt a c K τ y)
          (0, tmax) y0 (x :: xs))
    | _ => Except.error GrowthError.argCountMismatch)
      = Except.ok (solver (fun τ y => LogisticSigmoidGrowth.dydt a c K τ y)
          (0, xs.foldl max x) y0 (x :: xs))
  rw [getComputeParameters_of_length_eq _ _ _ (by norm_num) rfl, bind_ok]
  rfl

/-- Witness for C9 (amended): a solver that reports one value per requested
evaluation point, asked at the single non-negative time 0. -/
theorem c9_eval_points_alignment_witness :
    LogisticSigmoidGrowth.compute_y (fun _ _ _ teval => teval.map (fun _ => 0))
      (some 1) [] (0 :: []) [1, 1, 100]
      = Except.ok ((fun (_ : ℝ → ℝ → ℝ) (_ : ℝ × ℝ) (_ : ℝ) (teval : List ℝ) =>
          teval.map (fun _ => (0:ℝ)))
          (fun τ y => LogisticSigmoidGrowth.dydt 1 1 100 τ y)
          (0, List.foldl max 0 []) 1 (0 :: []))
    ∧ ((fun (_ : ℝ → ℝ → ℝ) (_ : ℝ × ℝ) (_ : ℝ) (teval : List ℝ) =>
          teval.map (fun _ => (0:ℝ)))
          (fun τ y => LogisticSigmoidGrowth.dydt 1 1 100 τ y)
          (0, List.foldl max 0 []) 1 (0 :: [])).length = (0 :: []).length :=
  c9_eval_points_alignment (fun _ _ _ teval => teval.map (fun _ => 0)) 1 0 []
    [] 1 1 100 (fun _ _ _ teval => List.length_map teval _)
    (fun τ hτ => by simp at hτ; simp [hτ])

end GrowthModeling
